import Mathlib

/-
Verification of the Jammu Weather Trend and Forecast Dashboard (app.py).

The dashboard script is embedded shallowly: every external effect
(the Meteostat fetch, the fallback CSV read, the OpenWeather HTTP GET,
and the Prophet fit/predict calls) is given an outcome by a `World`
record, and each function returns its result together with the list of
external events it performed, in order.  Dates are modelled as natural
day numbers, numeric cells as `Option Rat` (with `none` standing for a
missing value, i.e. NaN), and a pandas DataFrame as an index column
plus named value columns.
-/

namespace JammuDashboard

/-- A parsed JSON body, kept abstract: the dashboard only passes it through. -/
abbrev Json := String

/-- Model of a pandas DataFrame as used by app.py: a date index, a list of
column names, and one row of optional numeric cells per index entry. -/
structure DataFrame where
  index : List Nat
  columns : List String
  rows : List (List (Option Rat))
  deriving DecidableEq

/-- The empty DataFrame, as returned by `pd.DataFrame()`. -/
def DataFrame.emptyDF : DataFrame := ⟨[], [], []⟩

/-- Model of `df.empty`: true when either axis has length zero. -/
def DataFrame.emptyB (df : DataFrame) : Bool :=
  df.rows.isEmpty || df.columns.isEmpty

/-- Model of `len(df)`: the number of rows. -/
def DataFrame.nrows (df : DataFrame) : Nat := df.rows.length

/-- Model of `df.dropna()`: keep exactly the rows in which every cell is
present. -/
def DataFrame.dropna (df : DataFrame) : DataFrame :=
  let keep := (df.index.zip df.rows).filter (fun p => p.2.all Option.isSome)
  ⟨keep.map Prod.fst, df.columns, keep.map Prod.snd⟩

/-- The values of the named column, row by row. -/
def DataFrame.col (df : DataFrame) (c : String) : List (Option Rat) :=
  df.rows.map (fun r => r.getD (df.columns.findIdx (· == c)) none)

/-- Jammu latitude, from app.py line 25. -/
def JAMMU_LAT : Rat := 32.73

/-- Jammu longitude, from app.py line 26. -/
def JAMMU_LON : Rat := 74.86

/-- An HTTP GET request to the OpenWeather current-weather endpoint, as
built by the f-string in get_real_time_data. -/
structure HttpRequest where
  endpoint : String
  lat : Rat
  lon : Rat
  appid : String
  units : String
  deriving DecidableEq

/-- The OpenWeather current-weather endpoint named in the f-string URL. -/
def OPENWEATHER_ENDPOINT : String := "https://api.openweathermap.org/data/2.5/weather"

/-- One external event performed by the script, in program order. -/
inductive Event where
  | meteostatFetch (lat lon : Rat) (startDate endDate : Nat)
  | csvRead (path : String)
  | httpGet (req : HttpRequest)
  | prophetFit (train : List (Nat × Rat))
  | prophetPredict (future : List Nat)
  deriving DecidableEq

/-- Outcomes of every external interaction one script run can perform.
A `none` in `meteostat` means the Meteostat fetch raised an exception;
a `none` in `fallback` means reading the fallback CSV raised
FileNotFoundError; `apiKey` is the value of OPENWEATHER_API_KEY (which is
None when the secrets file is missing); a `none` in `openWeather` means
the GET raised a RequestException, including the bad-status case raised
by raise_for_status; `pred` is the fitted Prophet model seen as a map
from a date to its yhat prediction. -/
structure World where
  meteostat : Option DataFrame
  fallback : Option DataFrame
  apiKey : Option String
  openWeather : Option Json
  pred : Nat → Rat

/-- The sufficiency test on line 45 of app.py:
`not df.empty and 'prcp' in df.columns and len(df.dropna()) > 30`. -/
def sufficientData (df : DataFrame) : Bool :=
  !df.emptyB && df.columns.contains "prcp" && decide (30 < df.dropna.nrows)

/-- Model of get_historical_data (app.py lines 30-60): try the Meteostat
fetch; if it raises or its data fails the sufficiency test, read the
fallback CSV; if that file is missing, return the empty DataFrame. -/
def get_historical_data (lat lon : Rat) (start_date end_date : Nat)
    (w : World) : DataFrame × List Event :=
  let t0 : List Event := [.meteostatFetch lat lon start_date end_date]
  let fb : DataFrame × List Event :=
    match w.fallback with
    | some d => (d, t0 ++ [.csvRead "jammu_historical_weather.csv"])
    | none => (.emptyDF, t0 ++ [.csvRead "jammu_historical_weather.csv"])
  match w.meteostat with
  | some df => if sufficientData df then (df, t0) else fb
  | none => fb

/-- Python truthiness of the api_key argument: None and the empty string
are falsy. -/
def truthyKey : Option String → Bool
  | none => false
  | some s => !s.isEmpty

/-- Model of get_real_time_data (app.py lines 62-76): return None at once
for a falsy key, otherwise issue one GET with metric units and return the
parsed JSON body on success and None on a RequestException. -/
def get_real_time_data (api_key : Option String) (lat lon : Rat)
    (w : World) : Option Json × List Event :=
  if truthyKey api_key then
    let req : HttpRequest := ⟨OPENWEATHER_ENDPOINT, lat, lon, api_key.getD "", "metric"⟩
    match w.openWeather with
    | some j => (some j, [.httpGet req])
    | none => (none, [.httpGet req])
  else (none, [])

/-- The two-column (ds, y) series built on lines 86-90 of app.py: the time
index paired with the prcp column, with rows missing a value dropped. -/
def prepareProphet (historical_df : DataFrame) : List (Nat × Rat) :=
  (historical_df.index.zip (historical_df.col "prcp")).filterMap
    (fun p => p.2.map (fun y => (p.1, y)))

/-- Insert a day number into a sorted list, keeping it sorted. -/
def insertSorted (x : Nat) : List Nat → List Nat
  | [] => [x]
  | y :: ys => if x ≤ y then x :: y :: ys else y :: insertSorted x ys

/-- Insertion sort on day numbers. -/
def sortNat (l : List Nat) : List Nat := l.foldr insertSorted []

/-- Model of Prophet.make_future_dataframe with include_history left at its
default: the sorted, deduplicated training dates followed by `periods`
further consecutive days after the last training date. -/
def make_future_dataframe (historyDates : List Nat) (periods : Nat) : List Nat :=
  let hist := sortNat historyDates.dedup
  let lastDate := hist.foldl max 0
  hist ++ (List.range periods).map (fun i => lastDate + 1 + i)

/-- Model of get_forecast_data (app.py lines 79-101): bail out with an
empty result when the input is empty, has no prcp column, or yields fewer
than 30 complete points; otherwise fit Prophet once, build the 15-period
future dataframe and predict on it. The forecast is the (ds, yhat) table. -/
def get_forecast_data (historical_df : DataFrame) (w : World) :
    List (Nat × Rat) × List Event :=
  if historical_df.emptyB || !historical_df.columns.contains "prcp" then ([], [])
  else
    let df_prophet := prepareProphet historical_df
    if df_prophet.length < 30 then ([], [])
    else
      let future := make_future_dataframe (df_prophet.map Prod.fst) 15
      let forecast := future.map (fun d => (d, w.pred d))
      (forecast, [.prophetFit df_prophet, .prophetPredict future])

/-- Day-number encoding of datetime(2020, 1, 1), the fixed start of the
historical window; the model clock counts days from this date. -/
def START_2020 : Nat := 0

/-- Everything one script run computes that the claims mention. -/
structure RunResult where
  historical_df : DataFrame
  forecast_df : List (Nat × Rat)
  real_time_data : Option Json
  trace : List Event

/-- Model of the top-level script (app.py lines 110-113): the three data
calls made once per run, at the fixed Jammu coordinates, with their
external events concatenated in program order. -/
def runDashboard (now : Nat) (w : World) : RunResult :=
  let h := get_historical_data JAMMU_LAT JAMMU_LON START_2020 now w
  let f := get_forecast_data h.1 w
  let r := get_real_time_data w.apiKey JAMMU_LAT JAMMU_LON w
  ⟨h.1, f.1, r.1, h.2 ++ f.2 ++ r.2⟩

/-- The dummy hotspot records of app.py lines 167-170. -/
structure Hotspot where
  lat : Rat
  lon : Rat
  name : String
  risk : String
  deriving DecidableEq

/-- The fixed two-entry hotspot list (app.py lines 167-170). -/
def landslide_hotspots : List Hotspot :=
  [⟨32.78, 74.92, "Nagrota", "High"⟩, ⟨32.75, 74.88, "Jammu City", "Medium"⟩]

/-- Is the first character list a leading segment of the second? -/
def listStartsWith : List Char → List Char → Bool
  | [], _ => true
  | _ :: _, [] => false
  | a :: as, b :: bs => a == b && listStartsWith as bs

/-- Python substring membership `needle in hay` on strings. -/
def strContains (needle hay : String) : Bool :=
  (List.range (hay.data.length + 1)).any
    (fun i => listStartsWith needle.data (hay.data.drop i))

/-- The marker colour on line 177: red for High risk, orange otherwise. -/
def markerColor (h : Hotspot) : String :=
  if h.risk == "High" then "red" else "orange"

/-- The marker icon on line 178: cloud when the name contains the substring
Cloudburst, bolt otherwise. -/
def markerIcon (h : Hotspot) : String :=
  if strContains "Cloudburst" h.name then "cloud" else "bolt"

/-- Event classifiers used to count external fetches in a trace. -/
def Event.isMeteostat : Event → Bool
  | .meteostatFetch .. => true
  | _ => false

/-- True exactly on fallback CSV read events. -/
def Event.isCsvRead : Event → Bool
  | .csvRead _ => true
  | _ => false

/-- True exactly on OpenWeather GET events. -/
def Event.isHttpGet : Event → Bool
  | .httpGet _ => true
  | _ => false

/-- True exactly on the external data-provider fetches: the Meteostat
fetch and the OpenWeather GET. -/
def Event.isExternalFetch : Event → Bool
  | .meteostatFetch .. => true
  | .httpGet _ => true
  | _ => false

/-- True exactly on Prophet fit events. -/
def Event.isFit : Event → Bool
  | .prophetFit _ => true
  | _ => false

/-- True exactly on Prophet predict events. -/
def Event.isPredict : Event → Bool
  | .prophetPredict _ => true
  | _ => false

/-- The coordinates an event sends to an external provider, when any. -/
def Event.coords : Event → Option (Rat × Rat)
  | .meteostatFetch lat lon _ _ => some (lat, lon)
  | .httpGet req => some (req.lat, req.lon)
  | _ => none

/-- A one-row dataset standing for the bundled fallback CSV. -/
def fallbackDF : DataFrame := ⟨[0], ["prcp"], [[some 1]]⟩

/-- A 31-row complete dataset with a prcp column, enough for Prophet. -/
def bigDF : DataFrame :=
  ⟨List.range 31, ["prcp"], (List.range 31).map (fun _ => [some 1])⟩

/-- A world where the Meteostat fetch raises, the fallback CSV is present
and no API key is configured. -/
def worldFallback : World := ⟨none, some fallbackDF, none, none, fun _ => 0⟩

/-- A world where the fetch raises, the fallback is present, a key is
configured and the GET succeeds. -/
def worldKeyed : World :=
  ⟨none, some fallbackDF, some "KEY1", some "jsonbody", fun _ => 0⟩

/-- A world where the Meteostat fetch returns the 31-row dataset and
everything else is absent. -/
def worldBig : World := ⟨some bigDF, none, none, none, fun _ => 0⟩

/-- A world where every external interaction fails. -/
def worldBare : World := ⟨none, none, none, none, fun _ => 0⟩

/-- The sufficiency test of line 45, restated as the proposition the spec
describes: non-empty, has a prcp column, strictly more than 30 rows after
dropping rows with missing values. -/
lemma sufficientData_iff (df : DataFrame) :
    sufficientData df = true ↔
      (¬ df.emptyB = true ∧ "prcp" ∈ df.columns ∧ 30 < df.dropna.nrows) := by
  simp [sufficientData, and_assoc]

/-- C1: whenever the Meteostat fetch raises an exception or returns
insufficient data, get_historical_data returns the bundled dataset read
from jammu_historical_weather.csv; when the fetched data is sufficient,
that fetched frame is returned unchanged and the fallback is never read. -/
theorem C1_historical_fallback (lat lon : Rat) (s e : Nat) (w : World)
    (d : DataFrame) (hfb : w.fallback = some d) :
    (w.meteostat = none →
       (get_historical_data lat lon s e w).1 = d ∧
       Event.csvRead "jammu_historical_weather.csv" ∈
         (get_historical_data lat lon s e w).2) ∧
    (∀ df, w.meteostat = some df → sufficientData df = false →
       (get_historical_data lat lon s e w).1 = d ∧
       Event.csvRead "jammu_historical_weather.csv" ∈
         (get_historical_data lat lon s e w).2) ∧
    (∀ df, w.meteostat = some df → sufficientData df = true →
       (get_historical_data lat lon s e w).1 = df ∧
       (get_historical_data lat lon s e w).2.countP Event.isCsvRead = 0) := by
  refine ⟨?_, ?_, ?_⟩
  · intro hm
    simp [get_historical_data, hm, hfb]
  · intro df hm hs
    simp [get_historical_data, hm, hfb, hs]
  · intro df hm hs
    simp [get_historical_data, hm, hs, List.countP_cons, List.countP_nil,
      Event.isCsvRead]

/-- C1 witness: in a concrete world where the fetch raises and the
fallback file holds fallbackDF, that dataset is returned. -/
theorem C1_historical_fallback_witness :
    (get_historical_data JAMMU_LAT JAMMU_LON 0 1 worldFallback).1 = fallbackDF :=
  ((C1_historical_fallback JAMMU_LAT JAMMU_LON 0 1 worldFallback fallbackDF
    rfl).1 rfl).1

/-- C4: get_historical_data attempts the Meteostat fetch exactly once and
the CSV fallback at most once per call, its whole trace has at most two
events, and when both the fetch raises and the fallback file is missing
it returns the empty DataFrame after the single fallback attempt; an
insufficient fetch with a missing fallback file likewise ends in the
empty DataFrame with no retry. -/
theorem C4_single_try_fallback (lat lon : Rat) (s e : Nat) (w : World) :
    ((get_historical_data lat lon s e w).2.countP Event.isMeteostat = 1) ∧
    ((get_historical_data lat lon s e w).2.countP Event.isCsvRead ≤ 1) ∧
    ((get_historical_data lat lon s e w).2.length ≤ 2) ∧
    (w.meteostat = none → w.fallback = none →
       (get_historical_data lat lon s e w).1 = DataFrame.emptyDF ∧
       (get_historical_data lat lon s e w).2.countP Event.isCsvRead = 1) ∧
    (∀ df, w.meteostat = some df → sufficientData df = false →
       w.fallback = none →
       (get_historical_data lat lon s e w).1 = DataFrame.emptyDF) := by
  rcases hm : w.meteostat with _ | df <;> rcases hf : w.fallback with _ | d <;>
    simp [get_historical_data, hm, hf, Event.isMeteostat, Event.isCsvRead,
      List.countP_cons, List.countP_nil] <;>
  by_cases hs : sufficientData df <;>
    simp [hs, Event.isMeteostat, Event.isCsvRead, List.countP_cons,
      List.countP_nil]

/-- C4 witness: in the world where the fetch raises and the fallback file
is missing, the call returns the empty DataFrame after one fallback
attempt. -/
theorem C4_single_try_fallback_witness :
    (get_historical_data JAMMU_LAT JAMMU_LON 0 1 worldBare).1 =
      DataFrame.emptyDF ∧
    (get_historical_data JAMMU_LAT JAMMU_LON 0 1
      worldBare).2.countP Event.isCsvRead = 1 :=
  (C4_single_try_fallback JAMMU_LAT JAMMU_LON 0 1 worldBare).2.2.2.1 rfl rfl

/-- C9: the fetched Meteostat data is kept, and the fallback skipped,
exactly when it is non-empty, contains a prcp column and has strictly
more than 30 rows after dropping rows with missing values; fetched data
failing this test sends the call into the fallback read. -/
theorem C9_sufficiency (df : DataFrame) (lat lon : Rat) (s e : Nat)
    (w : World) (hm : w.meteostat = some df) :
    ((¬ df.emptyB = true ∧ "prcp" ∈ df.columns ∧ 30 < df.dropna.nrows) →
       (get_historical_data lat lon s e w).1 = df ∧
       (get_historical_data lat lon s e w).2.countP Event.isCsvRead = 0) ∧
    (¬ (¬ df.emptyB = true ∧ "prcp" ∈ df.columns ∧ 30 < df.dropna.nrows) →
       Event.csvRead "jammu_historical_weather.csv" ∈
         (get_historical_data lat lon s e w).2) := by
  constructor
  · intro hcond
    have hs : sufficientData df = true := (sufficientData_iff df).mpr hcond
    simp [get_historical_data, hm, hs, List.countP_cons, List.countP_nil,
      Event.isCsvRead]
  · intro hcond
    have hs : sufficientData df = false := by
      rcases Bool.eq_false_or_eq_true (sufficientData df) with h | h
      · exact absurd ((sufficientData_iff df).mp h) hcond
      · exact h
    rcases hf : w.fallback with _ | d <;>
      simp [get_historical_data, hm, hs, hf]

/-- C9 witness: the 31-row complete dataset passes the sufficiency test
and is returned without touching the fallback. -/
theorem C9_sufficiency_witness :
    (get_historical_data JAMMU_LAT JAMMU_LON 0 1 worldBig).1 = bigDF :=
  ((C9_sufficiency bigDF JAMMU_LAT JAMMU_LON 0 1 worldBig rfl).1
    (by decide)).1

lemma mem_insertSorted (y x : Nat) (l : List Nat) :
    y ∈ insertSorted x l ↔ y = x ∨ y ∈ l := by
  induction l with
  | nil => simp [insertSorted]
  | cons a as ih =>
    by_cases h : x ≤ a
    · simp [insertSorted, h]
    · simp only [insertSorted, if_neg h, List.mem_cons, ih]
      tauto

lemma mem_sortNat (y : Nat) (l : List Nat) : y ∈ sortNat l ↔ y ∈ l := by
  induction l with
  | nil => simp [sortNat]
  | cons a as ih =>
    simp only [sortNat, List.foldr_cons, mem_insertSorted, List.mem_cons]
    simp only [sortNat] at ih
    simp [ih]

lemma mem_make_future (d : Nat) (hist : List Nat) (periods : Nat)
    (hd : d ∈ hist) : d ∈ make_future_dataframe hist periods := by
  simp only [make_future_dataframe, List.mem_append]
  exact Or.inl (by simp [mem_sortNat, List.mem_dedup, hd])

/-- C2: whenever get_forecast_data returns a non-empty forecast, the
future dataframe handed to predict is the (sorted, deduplicated)
historical dates followed by exactly 15 additional future periods, every
historical date appears in it, and the forecast has one row per future
date, hence a 15-day projection beyond the history. -/
theorem C2_forecast_horizon (historical_df : DataFrame) (w : World)
    (hne : (get_forecast_data historical_df w).1 ≠ []) :
    ∃ future extra,
      Event.prophetPredict future ∈ (get_forecast_data historical_df w).2 ∧
      future =
        make_future_dataframe ((prepareProphet historical_df).map Prod.fst) 15 ∧
      future =
        sortNat ((prepareProphet historical_df).map Prod.fst).dedup ++ extra ∧
      extra.length = 15 ∧
      (∀ d ∈ (prepareProphet historical_df).map Prod.fst, d ∈ future) ∧
      (get_forecast_data historical_df w).1.length = future.length := by
  by_cases he : historical_df.emptyB = true
  · exact absurd (by simp [get_forecast_data, he]) hne
  · by_cases hp : "prcp" ∈ historical_df.columns
    · by_cases h2 : (prepareProphet historical_df).length < 30
      · exact absurd (by simp [get_forecast_data, he, hp, h2]) hne
      · refine ⟨make_future_dataframe
            ((prepareProphet historical_df).map Prod.fst) 15,
          (List.range 15).map (fun i =>
            (sortNat ((prepareProphet historical_df).map Prod.fst).dedup).foldl
              max 0 + 1 + i), ?_, rfl, rfl, by simp, ?_, ?_⟩
        · simp [get_forecast_data, he, hp, h2]
        · intro d hd
          exact mem_make_future d _ 15 hd
        · simp [get_forecast_data, he, hp, h2]
    · exact absurd (by simp [get_forecast_data, hp]) hne

/-- C2 witness: on the 31-row dataset the forecast is non-empty and its
length equals that of the 15-period future dataframe. -/
theorem C2_forecast_horizon_witness :
    (get_forecast_data bigDF worldBig).1 ≠ [] ∧
    (get_forecast_data bigDF worldBig).1.length =
      (make_future_dataframe ((prepareProphet bigDF).map Prod.fst) 15).length := by
  refine ⟨by decide, ?_⟩
  obtain ⟨future, extra, -, h2, -, -, -, h6⟩ :=
    C2_forecast_horizon bigDF worldBig (by decide)
  rw [h6, h2]

lemma hist_trace_events (lat lon : Rat) (s e : Nat) (w : World) :
    ((get_historical_data lat lon s e w).2.countP Event.isFit = 0) ∧
    ((get_historical_data lat lon s e w).2.countP Event.isPredict = 0) ∧
    ((get_historical_data lat lon s e w).2.countP Event.isExternalFetch = 1) ∧
    (∀ tr, Event.prophetFit tr ∉ (get_historical_data lat lon s e w).2) := by
  rcases hm : w.meteostat with _ | df <;> rcases hf : w.fallback with _ | d <;>
    simp [get_historical_data, hm, hf, Event.isFit, Event.isPredict,
      Event.isExternalFetch, List.countP_cons, List.countP_nil] <;>
  by_cases hs : sufficientData df <;>
    simp [hs, Event.isFit, Event.isPredict, Event.isExternalFetch,
      List.countP_cons, List.countP_nil]

lemma realtime_trace_events (api_key : Option String) (lat lon : Rat)
    (w : World) :
    ((get_real_time_data api_key lat lon w).2.countP Event.isFit = 0) ∧
    ((get_real_time_data api_key lat lon w).2.countP Event.isPredict = 0) ∧
    ((get_real_time_data api_key lat lon w).2.countP Event.isCsvRead = 0) ∧
    ((get_real_time_data api_key lat lon w).2.countP Event.isExternalFetch =
       if truthyKey api_key then 1 else 0) ∧
    (∀ tr, Event.prophetFit tr ∉ (get_real_time_data api_key lat lon w).2) := by
  by_cases hk : truthyKey api_key <;>
    rcases ho : w.openWeather with _ | j <;>
    simp [get_real_time_data, hk, ho, Event.isFit, Event.isPredict,
      Event.isCsvRead, Event.isExternalFetch, List.countP_cons,
      List.countP_nil]

lemma forecast_trace_events (df : DataFrame) (w : World) :
    ((get_forecast_data df w).2.countP Event.isFit ≤ 1) ∧
    ((get_forecast_data df w).2.countP Event.isPredict ≤ 1) ∧
    ((get_forecast_data df w).2.countP Event.isExternalFetch = 0) ∧
    ((get_forecast_data df w).2.countP Event.isCsvRead = 0) ∧
    (∀ tr, Event.prophetFit tr ∈ (get_forecast_data df w).2 →
       tr = prepareProphet df) := by
  by_cases he : df.emptyB = true
  · simp [get_forecast_data, he]
  · by_cases hp : "prcp" ∈ df.columns
    · by_cases h2 : (prepareProphet df).length < 30 <;>
        simp [get_forecast_data, he, hp, h2, Event.isFit, Event.isPredict,
          Event.isExternalFetch, Event.isCsvRead, List.countP_cons,
          List.countP_nil]
    · simp [get_forecast_data, hp]

/-- C7: one run fits the Prophet model at most once and calls predict at
most once, and any fit it performs is on the prepared two-column (ds, y)
series derived from the historical data with missing rows dropped. -/
theorem C7_single_prophet_call (now : Nat) (w : World) :
    ((runDashboard now w).trace.countP Event.isFit ≤ 1) ∧
    ((runDashboard now w).trace.countP Event.isPredict ≤ 1) ∧
    (∀ tr, Event.prophetFit tr ∈ (runDashboard now w).trace →
       tr = prepareProphet (runDashboard now w).historical_df) := by
  obtain ⟨hh1, hh2, -, hh4⟩ :=
    hist_trace_events JAMMU_LAT JAMMU_LON START_2020 now w
  obtain ⟨hf1, hf2, -, -, hf5⟩ :=
    forecast_trace_events
      (get_historical_data JAMMU_LAT JAMMU_LON START_2020 now w).1 w
  obtain ⟨hr1, hr2, -, -, hr5⟩ :=
    realtime_trace_events w.apiKey JAMMU_LAT JAMMU_LON w
  refine ⟨?_, ?_, ?_⟩
  · simp only [runDashboard, List.countP_append]
    omega
  · simp only [runDashboard, List.countP_append]
    omega
  · intro tr htr
    simp only [runDashboard, List.mem_append] at htr
    rcases htr with (h | h) | h
    · exact absurd h (hh4 tr)
    · exact hf5 tr h
    · exact absurd h (hr5 tr)

/-- C7 witness: in the world where Meteostat returns the 31-row dataset,
the run fits Prophet on exactly the prepared series of that dataset. -/
theorem C7_single_prophet_call_witness :
    Event.prophetFit (prepareProphet bigDF) ∈ (runDashboard 1 worldBig).trace ∧
    prepareProphet bigDF =
      prepareProphet (runDashboard 1 worldBig).historical_df := by
  have htr : (runDashboard 1 worldBig).trace =
      [Event.meteostatFetch JAMMU_LAT JAMMU_LON START_2020 1,
       Event.prophetFit (prepareProphet bigDF),
       Event.prophetPredict
         (make_future_dataframe ((prepareProphet bigDF).map Prod.fst) 15)] :=
    rfl
  have hmem : Event.prophetFit (prepareProphet bigDF) ∈
      (runDashboard 1 worldBig).trace := by
    rw [htr]
    simp
  exact ⟨hmem, (C7_single_prophet_call 1 worldBig).2.2 _ hmem⟩

/-- C8: get_forecast_data returns the empty forecast and performs no fit
when the input frame is empty, lacks a prcp column, or yields fewer than
30 complete rows; and a fit happens exactly when the frame is non-empty,
has a prcp column and yields at least 30 complete rows. -/
theorem C8_forecast_guard (historical_df : DataFrame) (w : World) :
    ((historical_df.emptyB = true ∨ "prcp" ∉ historical_df.columns ∨
        (prepareProphet historical_df).length < 30) →
       (get_forecast_data historical_df w).1 = [] ∧
       (get_forecast_data historical_df w).2.countP Event.isFit = 0) ∧
    ((get_forecast_data historical_df w).2.countP Event.isFit = 1 ↔
       (historical_df.emptyB = false ∧ "prcp" ∈ historical_df.columns ∧
        30 ≤ (prepareProphet historical_df).length)) := by
  by_cases he : historical_df.emptyB = true
  · simp [get_forecast_data, he]
  · by_cases hp : "prcp" ∈ historical_df.columns
    · by_cases hl : (prepareProphet historical_df).length < 30
      · constructor
        · intro _
          simp [get_forecast_data, he, hp, hl]
        · simp only [Bool.not_eq_true] at he
          simp [get_forecast_data, he, hp, hl]
      · constructor
        · intro h
          rcases h with h | h | h
          · exact absurd h he
          · exact absurd hp h
          · exact absurd h hl
        · simp only [Bool.not_eq_true] at he
          simp [get_forecast_data, he, hp, hl, Event.isFit, List.countP_cons,
            List.countP_nil]
          omega
    · simp [get_forecast_data, hp]

/-- C8 witness: on the empty DataFrame the forecast is empty and no fit
is performed. -/
theorem C8_forecast_guard_witness :
    (get_forecast_data DataFrame.emptyDF worldBare).1 = [] ∧
    (get_forecast_data DataFrame.emptyDF worldBare).2.countP Event.isFit = 0 :=
  (C8_forecast_guard DataFrame.emptyDF worldBare).1 (Or.inl rfl)

lemma hist_trace_coords (lat lon : Rat) (s e : Nat) (w : World) :
    ∀ ev ∈ (get_historical_data lat lon s e w).2,
      ev.coords = none ∨ ev.coords = some (lat, lon) := by
  rcases hm : w.meteostat with _ | df <;> rcases hf : w.fallback with _ | d <;>
    simp [get_historical_data, hm, hf, Event.coords] <;>
  by_cases hs : sufficientData df <;> simp [hs, Event.coords]

lemma forecast_trace_coords (df : DataFrame) (w : World) :
    ∀ ev ∈ (get_forecast_data df w).2, ev.coords = none := by
  by_cases he : df.emptyB = true
  · simp [get_forecast_data, he]
  · by_cases hp : "prcp" ∈ df.columns
    · by_cases h2 : (prepareProphet df).length < 30 <;>
        simp [get_forecast_data, he, hp, h2, Event.coords]
    · simp [get_forecast_data, hp]

lemma realtime_trace_coords (api_key : Option String) (lat lon : Rat)
    (w : World) :
    ∀ ev ∈ (get_real_time_data api_key lat lon w).2,
      ev.coords = none ∨ ev.coords = some (lat, lon) := by
  by_cases hk : truthyKey api_key <;> rcases ho : w.openWeather with _ | j <;>
    simp [get_real_time_data, hk, ho, Event.coords]

/-- C3: every external fetch one run performs carries the fixed Jammu
coordinates, latitude 32.73 and longitude 74.86; no other coordinates are
ever sent to a provider. -/
theorem C3_fixed_location (now : Nat) (w : World) :
    ∀ ev ∈ (runDashboard now w).trace, ∀ la lo,
      ev.coords = some (la, lo) → la = JAMMU_LAT ∧ lo = JAMMU_LON := by
  intro ev hev la lo hco
  simp only [runDashboard, List.mem_append] at hev
  rcases hev with (h | h) | h
  · rcases hist_trace_coords JAMMU_LAT JAMMU_LON START_2020 now w ev h with
      hc | hc
    · rw [hc] at hco
      cases hco
    · rw [hc] at hco
      simp at hco
      exact ⟨hco.1.symm, hco.2.symm⟩
  · rw [forecast_trace_coords _ w ev h] at hco
    cases hco
  · rcases realtime_trace_coords w.apiKey JAMMU_LAT JAMMU_LON w ev h with
      hc | hc
    · rw [hc] at hco
      cases hco
    · rw [hc] at hco
      simp at hco
      exact ⟨hco.1.symm, hco.2.symm⟩

/-- C3 witness: the OpenWeather GET of a keyed run is in the trace and
carries the Jammu coordinates. -/
theorem C3_fixed_location_witness :
    Event.httpGet ⟨OPENWEATHER_ENDPOINT, JAMMU_LAT, JAMMU_LON, "KEY1",
        "metric"⟩ ∈ (runDashboard 1 worldKeyed).trace ∧
    JAMMU_LAT = JAMMU_LAT ∧ JAMMU_LON = JAMMU_LON := by
  have htr : (runDashboard 1 worldKeyed).trace =
      [Event.meteostatFetch JAMMU_LAT JAMMU_LON START_2020 1,
       Event.csvRead "jammu_historical_weather.csv",
       Event.httpGet ⟨OPENWEATHER_ENDPOINT, JAMMU_LAT, JAMMU_LON, "KEY1",
         "metric"⟩] := rfl
  have hmem : Event.httpGet ⟨OPENWEATHER_ENDPOINT, JAMMU_LAT, JAMMU_LON,
      "KEY1", "metric"⟩ ∈ (runDashboard 1 worldKeyed).trace := by
    rw [htr]
    simp
  exact ⟨hmem, C3_fixed_location 1 worldKeyed _ hmem JAMMU_LAT JAMMU_LON rfl⟩

/-- C5 counterexample: in a run whose secrets file is missing the api key
is None, the real-time fetch is skipped, and only one external
data-provider fetch happens, so a run does not always perform exactly
two fetches. -/
theorem C5_counterexample :
    (runDashboard 1 worldFallback).trace.countP Event.isExternalFetch = 1 ∧
    ¬ (runDashboard 1 worldFallback).trace.countP Event.isExternalFetch = 2 :=
  ⟨by decide, by decide⟩

/-- C5 amended: a run performs at most two external data-provider
fetches; the Meteostat fetch always happens and the OpenWeather fetch
happens exactly when the configured api key is truthy; the real-time
call never reads the fallback CSV and returns None on any request
failure. -/
theorem C5_fetch_count (now : Nat) (w : World) :
    ((runDashboard now w).trace.countP Event.isExternalFetch ≤ 2) ∧
    (truthyKey w.apiKey = true →
       (runDashboard now w).trace.countP Event.isExternalFetch = 2) ∧
    (truthyKey w.apiKey = false →
       (runDashboard now w).trace.countP Event.isExternalFetch = 1) ∧
    ((get_real_time_data w.apiKey JAMMU_LAT JAMMU_LON w).2.countP
        Event.isCsvRead = 0) ∧
    (w.openWeather = none →
       (get_real_time_data w.apiKey JAMMU_LAT JAMMU_LON w).1 = none) := by
  obtain ⟨-, -, hh3, -⟩ :=
    hist_trace_events JAMMU_LAT JAMMU_LON START_2020 now w
  obtain ⟨-, -, hf3, -, -⟩ :=
    forecast_trace_events
      (get_historical_data JAMMU_LAT JAMMU_LON START_2020 now w).1 w
  obtain ⟨-, -, hr3, hr4, -⟩ :=
    realtime_trace_events w.apiKey JAMMU_LAT JAMMU_LON w
  refine ⟨?_, ?_, ?_, hr3, ?_⟩
  · simp only [runDashboard, List.countP_append]
    by_cases hk : truthyKey w.apiKey
    · rw [hk, if_pos rfl] at hr4
      omega
    · rw [Bool.not_eq_true] at hk
      rw [hk, if_neg (by simp)] at hr4
      omega
  · intro hk
    simp only [runDashboard, List.countP_append]
    rw [hk, if_pos rfl] at hr4
    omega
  · intro hk
    simp only [runDashboard, List.countP_append]
    rw [hk, if_neg (by simp)] at hr4
    omega
  · intro ho
    by_cases hk : truthyKey w.apiKey <;> simp [get_real_time_data, hk, ho]

/-- C5 witness: with a configured key the run performs exactly two
external fetches. -/
theorem C5_fetch_count_witness :
    truthyKey worldKeyed.apiKey = true ∧
    (runDashboard 1 worldKeyed).trace.countP Event.isExternalFetch = 2 :=
  ⟨by decide, (C5_fetch_count 1 worldKeyed).2.1 (by decide)⟩

/-- C6: for every non-empty api key, get_real_time_data issues exactly
one GET to the OpenWeather current-weather endpoint parameterised by the
given latitude, longitude and key with metric units, and returns the
parsed JSON body whenever the request succeeds. -/
theorem C6_realtime_request (key : String) (lat lon : Rat) (w : World)
    (hk : key.isEmpty = false) :
    (get_real_time_data (some key) lat lon w).2 =
      [Event.httpGet ⟨OPENWEATHER_ENDPOINT, lat, lon, key, "metric"⟩] ∧
    (∀ j, w.openWeather = some j →
       (get_real_time_data (some key) lat lon w).1 = some j) := by
  have ht : truthyKey (some key) = true := by simp [truthyKey, hk]
  rcases ho : w.openWeather with _ | j <;>
    simp [get_real_time_data, ht, ho]

/-- C6 witness: with the concrete key the single GET request and the
passed-through JSON body are observed. -/
theorem C6_realtime_request_witness :
    (get_real_time_data (some "KEY1") JAMMU_LAT JAMMU_LON worldKeyed).2 =
      [Event.httpGet ⟨OPENWEATHER_ENDPOINT, JAMMU_LAT, JAMMU_LON, "KEY1",
        "metric"⟩] ∧
    (get_real_time_data (some "KEY1") JAMMU_LAT JAMMU_LON worldKeyed).1 =
      some "jsonbody" :=
  ⟨(C6_realtime_request "KEY1" JAMMU_LAT JAMMU_LON worldKeyed rfl).1,
   (C6_realtime_request "KEY1" JAMMU_LAT JAMMU_LON worldKeyed rfl).2
     "jsonbody" rfl⟩

/-- C10: for every hotspot in the fixed two-entry list, the marker colour
is red exactly when the risk is High and orange otherwise, and the icon
is cloud exactly when the name contains the substring Cloudburst and
bolt otherwise. -/
theorem C10_marker_style (h : Hotspot) (hmem : h ∈ landslide_hotspots) :
    (markerColor h = "red" ↔ h.risk = "High") ∧
    (h.risk ≠ "High" → markerColor h = "orange") ∧
    (markerIcon h = "cloud" ↔ strContains "Cloudburst" h.name = true) ∧
    (strContains "Cloudburst" h.name = false → markerIcon h = "bolt") := by
  simp only [landslide_hotspots, List.mem_cons, List.not_mem_nil,
    or_false] at hmem
  rcases hmem with rfl | rfl <;> refine ⟨?_, ?_, ?_, ?_⟩ <;> decide

/-- C10 witness: the Nagrota hotspot is in the list and its marker is
red. -/
theorem C10_marker_style_witness :
    (⟨32.78, 74.92, "Nagrota", "High"⟩ : Hotspot) ∈ landslide_hotspots ∧
    markerColor ⟨32.78, 74.92, "Nagrota", "High"⟩ = "red" :=
  ⟨by simp [landslide_hotspots],
   (C10_marker_style _ (by simp [landslide_hotspots])).1.mpr rfl⟩

end JammuDashboard
